import Mathlib

/-!
Verification of the container-management HTTP service (`main.go`) against its
natural-language specification.

The Go source is shallowly embedded: the handler-internal logic of
`POST /create` (image phase, name resolution, port availability check and
search, create/start with one bounded retry, start-error classification) and
of `POST /bulk/:action` is translated into executable Lean definitions.
External daemon calls (container list, image list, pull, create, start, ...)
are passed in as oracle parameters; within one request the daemon's answers
are taken to be stable, matching the source's assumption that repeated list
calls during a single request observe the same world.

Go `string` values are modelled by Lean `String` (the relevant error messages
and port strings are ASCII, so byte indexing coincides with character
indexing); Go `int`/`int64` by `Int` with the `strconv.Atoi` 64-bit range
check made explicit.
-/

/-! ## Go string primitives (strings.Index / Contains / Split / TrimPrefix, strconv.Atoi / Itoa) -/

/-- Does `pat` occur at the head of `s`? (Helper for `strings.Index`.) -/
def leadsWith : List Char → List Char → Bool
  | [], _ => true
  | _ :: _, [] => false
  | a :: as, b :: bs => a == b && leadsWith as bs

/-- First index at which `pat` occurs in `s`, scanning left to right.
`strings.Index` returns -1 when absent; we return `none`. -/
def idxAux (pat : List Char) : List Char → Option Nat
  | [] => if leadsWith pat [] then some 0 else none
  | c :: t => if leadsWith pat (c :: t) then some 0 else (idxAux pat t).map (· + 1)

/-- Go `strings.Index s pat` (as an `Option`). -/
def goIndex (s pat : String) : Option Nat :=
  idxAux pat.data s.data

/-- Go `strings.Contains s pat`. -/
def containsStr (s pat : String) : Bool :=
  (goIndex s pat).isSome

/-- Go `strings.TrimPrefix name "/"`: drop one leading slash if present. -/
def stripSlash (s : String) : String :=
  match s.data with
  | '/' :: rest => String.mk rest
  | _ => s

/-- Splitting worker for `strings.Split` with a non-empty separator.
The fuel starts at the length of the text, which bounds the number of steps. -/
def goSplitAux (sep : List Char) : Nat → List Char → List Char → List (List Char)
  | 0, acc, s => [acc.reverse ++ s]
  | _ + 1, acc, [] => [acc.reverse]
  | fuel + 1, acc, c :: t =>
    if leadsWith sep (c :: t) then
      acc.reverse :: goSplitAux sep fuel [] ((c :: t).drop sep.length)
    else
      goSplitAux sep fuel (c :: acc) t

/-- Go `strings.Split s sep` for a non-empty separator (the source always
splits on ":"). -/
def goSplit (s sep : String) : List String :=
  (goSplitAux sep.data s.data.length [] s.data).map String.mk

/-- Is `c` an ASCII decimal digit (Go `c >= '0' && c <= '9'`)? -/
def isDigitChar (c : Char) : Bool :=
  decide ('0' ≤ c) && decide (c ≤ '9')

/-- Value of a non-empty all-digit character list; `none` otherwise. -/
def digitsVal (cs : List Char) : Option Nat :=
  match cs with
  | [] => none
  | _ =>
    if cs.all isDigitChar then
      some (cs.foldl (fun acc c => acc * 10 + (c.toNat - '0'.toNat)) 0)
    else none

/-- Largest Go `int` (64-bit) value. -/
def goIntMax : Nat := 9223372036854775807

/-- Magnitude of the smallest Go `int` (64-bit) value. -/
def goIntMinMag : Nat := 9223372036854775808

/-- Go `strconv.Atoi`: optional sign, one or more decimal digits, 64-bit
range; anything else is an error (`none`). -/
def goAtoi (s : String) : Option Int :=
  match s.data with
  | '+' :: rest => (digitsVal rest).bind fun n =>
      if n ≤ goIntMax then some (Int.ofNat n) else none
  | '-' :: rest => (digitsVal rest).bind fun n =>
      if n ≤ goIntMinMag then some (-(Int.ofNat n)) else none
  | l => (digitsVal l).bind fun n =>
      if n ≤ goIntMax then some (Int.ofNat n) else none

/-! ## Data model -/

/-- The summary the daemon returns for one container in `ContainerList`
(`All: true`): its id, its names (with the daemon's leading "/"), and the
public (host) ports it publishes (`p.PublicPort`, 0 meaning none). -/
structure ContainerSummary where
  cid : String
  names : List String
  ports : List Nat
deriving DecidableEq

/-- Result of one `cli.ContainerList(ctx, ListOptions{All: true})` call:
either an error or the list of all known containers. -/
def ListResult : Type := Except String (List ContainerSummary)

/-- The port the HTTP service actually listens on: `r.Run(":8081")`. -/
def serverListenPort : Int := 8081

/-! ## Port allocator (`isPortInUse` closure and the search loops, main.go 186-256) -/

/-- The `isPortInUse` closure: a port is in use when it equals the hardcoded
8080 (the comment beside it says "Check if it's the server port"), or when the
container list succeeds and some container publishes it as a non-zero public
port. A failed container list reports the port as NOT in use. -/
def isPortInUse (port : Int) (lr : ListResult) : Bool :=
  if port == 8080 then true
  else
    match lr with
    | .error _ => false
    | .ok cs => cs.any fun c => c.ports.any fun p => p != 0 && (p : Int) == port

/-- The ascending search loop `for i := lo; i <= hi; i++`, expressed with the
iteration count as fuel: returns the first port not in use, if any. -/
def scanFree (lr : ListResult) : Int → Nat → Option Int
  | _, 0 => none
  | lo, n + 1 => if isPortInUse lo lr then scanFree lr (lo + 1) n else some lo

/-- The whole port search of the create handler: if the requested port is
free it is kept; otherwise scan `requested+1 .. 9999`, then fall back to
`8081 .. 9999` (1919 candidates); `none` means both scans failed (the handler
answers 409). -/
def resolveHostPort (requested : Int) (lr : ListResult) : Option Int :=
  if isPortInUse requested lr then
    match scanFree lr (requested + 1) (9999 - requested).toNat with
    | some p => some p
    | none => scanFree lr 8081 1919
  else some requested

/-! ## Name resolver (main.go 142-160) -/

/-- One pass of the collision loop: for each container in list order, if any
of its names (leading "/" stripped) equals the CURRENT candidate name, append
"-" plus the Unix-seconds timestamp, then continue with the next container. -/
def collideFold (now : Int) (cs : List ContainerSummary) (name : String) : String :=
  match cs with
  | [] => name
  | c :: t =>
    collideFold now t
      (if c.names.any (fun m => stripSlash m == name) then
        name ++ "-" ++ toString now
      else name)

/-- The name resolution of the create handler: an empty requested name is
replaced by "my-container-" plus the Unix-seconds timestamp (no daemon call);
otherwise, when the container list succeeds, the collision loop runs; when
the list fails the requested name is used unchanged. -/
def resolveName (req : String) (now : Int) (lr : ListResult) : String :=
  if req == "" then "my-container-" ++ toString now
  else
    match lr with
    | .error _ => req
    | .ok cs => collideFold now cs req

/-- Does any known container carry `n` among its (slash-stripped) names? -/
def anyNameMatches (cs : List ContainerSummary) (n : String) : Bool :=
  cs.any fun c => c.names.any fun m => stripSlash m == n

/-- `k` copies of the "-" ++ timestamp block the collision loop appends. -/
def suffixBlocks (now : Int) : Nat → String
  | 0 => ""
  | k + 1 => "-" ++ toString now ++ suffixBlocks now k

/-! ## Error classification of start failures (main.go 333-345 and 552-561) -/

/-- The port extraction both start-error sites share: find the FIRST
occurrence of "0.0.0.0:", take the text after it up to the next ":"; keep ""
when "0.0.0.0:" is absent or the next ":" is missing or immediate. -/
def extractConflictPort (errorDetails : String) : String :=
  match goIndex errorDetails "0.0.0.0:" with
  | none => ""
  | some i =>
    let rest := errorDetails.data.drop (i + 8)
    match idxAux [':'] rest with
    | some e => if e > 0 then String.mk (rest.take e) else ""
    | none => ""

/-- Classification of a `ContainerStart` failure in the create handler:
"bind host port" wins first and extracts a port; otherwise "address already
in use" is a port conflict with no extraction; anything else is generic. -/
inductive StartErrClass where
  | portBindingFailed (port : String)
  | addressInUse
  | generic
deriving DecidableEq

/-- The start-error classifier of the create handler (main.go 333-345). -/
def classifyStartErr (errorDetails : String) : StartErrClass :=
  if containsStr errorDetails "bind host port" then
    .portBindingFailed (extractConflictPort errorDetails)
  else if containsStr errorDetails "address already in use" then
    .addressInUse
  else .generic

/-! ## Create handler flow (main.go 66-393) -/

/-- The port binding the create handler configures: exposed container port
(with "/tcp"), host IP "0.0.0.0", and the final host port STRING (the raw
requested string when it was free, `strconv.Itoa` of the found port when
reallocated). -/
structure PortConfig where
  exposedPort : String
  hostIP : String
  hostPort : String
  containerPort : String
deriving DecidableEq

/-- Outcome of the port phase of the create handler (main.go 171-274). -/
inductive PortPhase where
  | noBinding
  | badRequest (msg : String)
  | exhausted
  | binding (cfg : PortConfig)
deriving DecidableEq

/-- The port phase: an empty port field, or one that does not split on ":"
into exactly two parts, silently configures NO binding; a two-part field
whose host part fails `strconv.Atoi` answers 400; otherwise the allocator
runs and either binds or reports exhaustion (409). -/
def portPhase (reqPort : String) (lr : ListResult) : PortPhase :=
  if reqPort == "" then .noBinding
  else
    match goSplit reqPort ":" with
    | [hostStr, contStr] =>
      match goAtoi hostStr with
      | none => .badRequest ("Invalid host port: " ++ hostStr)
      | some hp =>
        match resolveHostPort hp lr with
        | none => .exhausted
        | some fp =>
          .binding
            ⟨contStr ++ "/tcp", "0.0.0.0",
              if isPortInUse hp lr then toString fp else hostStr, contStr⟩
    | _ => .noBinding

/-- Image phase (main.go 101-139): a failed image list is only logged and the
pull is SKIPPED; when the list succeeds and the image is absent from every
RepoTags list, the pull (and its stream drain) runs, its failure producing
the 500 message. `imgList` carries each image's RepoTags; `pullRes` is the
combined outcome of `ImagePull` plus the `io.Copy` drain. -/
def imagePhase (imageName : String) (imgList : Except String (List (List String)))
    (pullRes : String → Option String) : Option String :=
  match imgList with
  | .error _ => none
  | .ok images =>
    if images.any (fun tags => tags.any fun t => t == imageName) then none
    else
      match pullRes imageName with
      | some e => some ("Error pulling image: " ++ e)
      | none => none

/-- The image reference the handler uses: the request's, defaulted to
"nginx:latest" when empty. -/
def resolvedImage (img : String) : String :=
  if img == "" then "nginx:latest" else img

/-- Port extraction of the CREATE-stage bind failure (main.go 290-299): split
the message on ":", find the first part led by a digit, and take its first
whitespace-separated field; "unknown" when nothing matches. -/
def extractCreatePort (e : String) : String :=
  if containsStr e ":" then
    match (goSplit e ":").find? (fun part =>
        part.data.length > 0 && isDigitChar (part.data.headD ' ')) with
    | some part =>
      String.mk (part.data.takeWhile fun c =>
        !(c == ' ' || c == '\t' || c == '\n' || c == '\r'))
    | none => "unknown"
  else "unknown"

/-- A container-mutating daemon call the create handler can issue. -/
inductive DaemonCall where
  | createC (name : String) (binding : Option PortConfig)
  | startC (cid : String)
deriving DecidableEq

/-- Terminal outcome of the create handler. -/
inductive FlowResult where
  | pullError (msg : String)
  | badPort (msg : String)
  | exhausted409
  | createConflictPort (port : String)
  | createFailed (msg : String)
  | startConflict (cid : String) (port : String)
  | startFailed (cid : String) (msg : String)
  | ok (cid : String) (name : String) (image : String) (port : String) (changedNote : Bool)
deriving DecidableEq

/-- The start step (main.go 325-392): a classified port conflict answers 409
carrying the created container's id and the extracted port ("" for the
address-in-use branch, which extracts nothing at this site); other failures
are 500; success reports the actual mapping plus a note flag exactly when the
actual mapping differs from a non-empty requested one. -/
def startPhase (cid : String) (name image actualPortMapping reqPort : String)
    (startRes : String → Option String) : FlowResult :=
  match startRes cid with
  | some e =>
    match classifyStartErr e with
    | .portBindingFailed p => .startConflict cid p
    | .addressInUse => .startConflict cid ""
    | .generic => .startFailed cid e
  | none => .ok cid name image actualPortMapping (actualPortMapping != reqPort && reqPort != "")

/-- Create plus start (main.go 278-392). On a create failure whose message
contains "already in use" AND "container name", exactly one retry is issued
under the name extended with "-" plus the nanosecond timestamp; a failure of
that retry is surfaced as 500 with no further attempt. A create failure
containing "already in use" and "bind host port" (but not "container name")
answers 409 with the create-stage port extraction; any other create failure
is 500. The trace records every create/start call in order. -/
def createStartPhase (name : String) (binding : Option PortConfig)
    (actualPortMapping reqPort image : String) (nowNano : Int)
    (createRes : String → Except String String)
    (startRes : String → Option String) : FlowResult × List DaemonCall :=
  match createRes name with
  | .ok cid =>
    (startPhase cid name image actualPortMapping reqPort startRes,
      [.createC name binding, .startC cid])
  | .error e =>
    if containsStr e "already in use" then
      if containsStr e "container name" then
        let name2 := name ++ "-" ++ toString nowNano
        match createRes name2 with
        | .ok cid =>
          (startPhase cid name2 image actualPortMapping reqPort startRes,
            [.createC name binding, .createC name2 binding, .startC cid])
        | .error e2 =>
          (.createFailed ("Error creating container: " ++ e2),
            [.createC name binding, .createC name2 binding])
      else if containsStr e "bind host port" then
        (.createConflictPort (extractCreatePort e), [.createC name binding])
      else
        (.createFailed ("Error creating container: " ++ e), [.createC name binding])
    else
      (.createFailed ("Error creating container: " ++ e), [.createC name binding])

/-- The JSON body of `POST /create`: name, image and port, each optional
(empty when absent). -/
structure CreateContainerRequest where
  name : String
  image : String
  port : String
deriving DecidableEq

/-- The whole create handler after JSON decode, client connect and ping
(main.go 93-392): image phase, name resolution, port phase, then create and
start; `now` is the Unix-seconds and `nowNano` the nanosecond clock. The
second component lists the container-mutating daemon calls issued. -/
def createFlow (req : CreateContainerRequest) (now nowNano : Int)
    (imgList : Except String (List (List String))) (pullRes : String → Option String)
    (lr : ListResult) (createRes : String → Except String String)
    (startRes : String → Option String) : FlowResult × List DaemonCall :=
  let imageName := resolvedImage req.image
  match imagePhase imageName imgList pullRes with
  | some e => (.pullError e, [])
  | none =>
    let containerName := resolveName req.name now lr
    match portPhase req.port lr with
    | .badRequest m => (.badPort m, [])
    | .exhausted => (.exhausted409, [])
    | .noBinding =>
      createStartPhase containerName none "none" req.port imageName nowNano createRes startRes
    | .binding cfg =>
      createStartPhase containerName (some cfg) (cfg.hostPort ++ ":" ++ cfg.containerPort)
        req.port imageName nowNano createRes startRes

/-! ## Bulk lifecycle executor (main.go 1029-1091) -/

/-- The daemon's behavior for the four lifecycle verbs, per container id:
`none` means the call succeeded, `some msg` carries the error message.
`stop` and `restart` are issued with the 30-second timeout, `remove` with
force; those options live in the daemon, so here each verb is one oracle. -/
structure DaemonOps where
  startOp : String → Option String
  stopOp : String → Option String
  removeOp : String → Option String
  restartOp : String → Option String

/-- Per-target status recorded in the results map. -/
inductive BulkStatus where
  | okB
  | errB (msg : String)
deriving DecidableEq, BEq

/-- One iteration's daemon call: dispatch on the action string, an
unrecognized action producing the "unknown action" error. -/
def bulkStep (ops : DaemonOps) (action cid : String) : Option String :=
  if action == "start" then ops.startOp cid
  else if action == "stop" then ops.stopOp cid
  else if action == "remove" then ops.removeOp cid
  else if action == "restart" then ops.restartOp cid
  else some ("unknown action: " ++ action)

/-- The status an iteration records for its outcome. -/
def outcomeOf (r : Option String) : BulkStatus :=
  match r with
  | none => .okB
  | some m => .errB m

/-- Go map assignment `results[id] = v`: replace the existing entry for the
key or append a fresh one. -/
def mapSet (m : List (String × BulkStatus)) (k : String) (v : BulkStatus) :
    List (String × BulkStatus) :=
  match m with
  | [] => [(k, v)]
  | (k0, v0) :: t => if k0 == k then (k, v) :: t else (k0, v0) :: mapSet t k v

/-- Accumulated state of the bulk loop: the results map, the two counters,
and the ordered list of (action, id) daemon calls issued so far. -/
structure BulkAcc where
  results : List (String × BulkStatus)
  success : Nat
  errors : Nat
  calls : List (String × String)
deriving DecidableEq

/-- The bulk loop body over the remaining target ids. -/
def bulkGo (ops : DaemonOps) (action : String) : List String → BulkAcc → BulkAcc
  | [], acc => acc
  | cid :: t, acc =>
    bulkGo ops action t
      (match bulkStep ops action cid with
      | none => ⟨mapSet acc.results cid .okB, acc.success + 1, acc.errors, acc.calls ++ [(action, cid)]⟩
      | some m => ⟨mapSet acc.results cid (.errB m), acc.success, acc.errors + 1, acc.calls ++ [(action, cid)]⟩)

/-- `POST /bulk/:action`: process every target in input order, never stopping
at a failure; the summary's `total` is the input length, reported next to the
final `success` and `errors` counters. -/
def bulkApply (ops : DaemonOps) (action : String) (ids : List String) : BulkAcc :=
  bulkGo ops action ids ⟨[], 0, 0, []⟩

/-! ## Helper lemmas -/

/-- A successful scan yields a port that is free and at least the scan's
lower bound. -/
theorem scanFree_sound (lr : ListResult) :
    ∀ (n : Nat) (lo p : Int), scanFree lr lo n = some p →
      isPortInUse p lr = false ∧ lo ≤ p := by
  intro n
  induction n with
  | zero => intro lo p h; simp [scanFree] at h
  | succ m ih =>
    intro lo p h
    unfold scanFree at h
    by_cases hc : isPortInUse lo lr = true
    · rw [if_pos hc] at h
      obtain ⟨hf, hle⟩ := ih (lo + 1) p h
      exact ⟨hf, by omega⟩
    · rw [if_neg hc] at h
      injection h with h
      subst h
      exact ⟨by simpa using hc, le_refl _⟩

/-- Unfolding `anyNameMatches` over a cons cell. -/
theorem anyNameMatches_cons (c : ContainerSummary) (t : List ContainerSummary) (n : String) :
    anyNameMatches (c :: t) n =
      ((c.names.any fun m => stripSlash m == n) || anyNameMatches t n) := rfl

/-- The collision loop only ever appends "-" ++ timestamp blocks. -/
theorem collideFold_suffix (now : Int) :
    ∀ (cs : List ContainerSummary) (name : String),
      ∃ k, collideFold now cs name = name ++ suffixBlocks now k := by
  intro cs
  induction cs with
  | nil =>
    intro name
    exact ⟨0, by simp [collideFold, suffixBlocks, String.append_empty]⟩
  | cons c t ih =>
    intro name
    unfold collideFold
    by_cases hm : (c.names.any fun m => stripSlash m == name) = true
    · rw [if_pos hm]
      obtain ⟨k, hk⟩ := ih (name ++ "-" ++ toString now)
      exact ⟨k + 1, by rw [hk]; simp [suffixBlocks, String.append_assoc]⟩
    · rw [if_neg hm]
      exact ih name

/-- When the requested name occurs among the (slash-stripped) known names,
the collision loop appends at least one block. -/
theorem collideFold_collide (now : Int) :
    ∀ (cs : List ContainerSummary) (name : String),
      anyNameMatches cs name = true →
      ∃ k, 1 ≤ k ∧ collideFold now cs name = name ++ suffixBlocks now k := by
  intro cs
  induction cs with
  | nil => intro name h; simp [anyNameMatches] at h
  | cons c t ih =>
    intro name h
    unfold collideFold
    by_cases hm : (c.names.any fun m => stripSlash m == name) = true
    · rw [if_pos hm]
      obtain ⟨k, hk⟩ := collideFold_suffix now t (name ++ "-" ++ toString now)
      exact ⟨k + 1, by omega, by rw [hk]; simp [suffixBlocks, String.append_assoc]⟩
    · rw [if_neg hm]
      apply ih
      rw [anyNameMatches_cons] at h
      rcases Bool.or_eq_true_iff.mp h with h1 | h2
      · exact absurd h1 hm
      · exact h2

/-- Looking up the key just set finds the value just set. -/
theorem lookup_mapSet_self (k : String) (v : BulkStatus) :
    ∀ m, List.lookup k (mapSet m k v) = some v := by
  intro m
  induction m with
  | nil => simp [mapSet, List.lookup]
  | cons hd t ih =>
    obtain ⟨k0, v0⟩ := hd
    unfold mapSet
    by_cases hk : (k0 == k) = true
    · rw [if_pos hk]
      simp [List.lookup]
    · rw [if_neg hk]
      have hne : (k == k0) = false :=
        beq_eq_false_iff_ne.mpr fun h => hk (beq_iff_eq.mpr h.symm)
      rw [List.lookup_cons, hne, ih]

/-- Setting one key leaves every other key's lookup unchanged. -/
theorem lookup_mapSet_ne (k k1 : String) (v : BulkStatus) (hne : k1 ≠ k) :
    ∀ m, List.lookup k1 (mapSet m k v) = List.lookup k1 m := by
  intro m
  induction m with
  | nil =>
    have h1 : (k1 == k) = false := beq_eq_false_iff_ne.mpr hne
    simp [mapSet, List.lookup, h1]
  | cons hd t ih =>
    obtain ⟨k0, v0⟩ := hd
    unfold mapSet
    by_cases hk : (k0 == k) = true
    · rw [if_pos hk]
      have hk0 : k0 = k := beq_iff_eq.mp hk
      have h1 : (k1 == k) = false := beq_eq_false_iff_ne.mpr hne
      have h2 : (k1 == k0) = false := beq_eq_false_iff_ne.mpr (hk0 ▸ hne)
      simp [List.lookup, h1, h2]
    · rw [if_neg hk]
      simp [List.lookup, ih]

/-- Each iteration of the bulk loop increments exactly one of the two
counters. -/
theorem bulkGo_counts (ops : DaemonOps) (action : String) :
    ∀ (ids : List String) (acc : BulkAcc),
      (bulkGo ops action ids acc).success + (bulkGo ops action ids acc).errors =
        acc.success + acc.errors + ids.length := by
  intro ids
  induction ids with
  | nil => intro acc; simp [bulkGo]
  | cons cid t ih =>
    intro acc
    unfold bulkGo
    cases hstep : bulkStep ops action cid with
    | none => rw [ih]; simp; omega
    | some m => rw [ih]; simp; omega

/-- The bulk loop issues exactly one daemon call per target, in input
order. -/
theorem bulkGo_calls (ops : DaemonOps) (action : String) :
    ∀ (ids : List String) (acc : BulkAcc),
      (bulkGo ops action ids acc).calls =
        acc.calls ++ ids.map fun cid => (action, cid) := by
  intro ids
  induction ids with
  | nil => intro acc; simp [bulkGo]
  | cons cid t ih =>
    intro acc
    unfold bulkGo
    cases hstep : bulkStep ops action cid with
    | none => rw [ih]; simp
    | some m => rw [ih]; simp

/-- One step of the bulk loop, written with the recorded outcome named. -/
theorem bulkGo_cons (ops : DaemonOps) (action hd : String) (t : List String)
    (acc : BulkAcc) :
    bulkGo ops action (hd :: t) acc =
      bulkGo ops action t
        ⟨mapSet acc.results hd (outcomeOf (bulkStep ops action hd)),
          acc.success + (if (bulkStep ops action hd).isNone then 1 else 0),
          acc.errors + (if (bulkStep ops action hd).isNone then 0 else 1),
          acc.calls ++ [(action, hd)]⟩ := by
  conv_lhs => rw [bulkGo]
  cases bulkStep ops action hd <;> simp [outcomeOf]

/-- After the bulk loop, every processed id's entry holds the outcome of
that id's own daemon call, independent of the other targets. -/
theorem bulkGo_lookup (ops : DaemonOps) (action : String) :
    ∀ (ids : List String) (acc : BulkAcc) (cid : String),
      (cid ∈ ids ∨
        List.lookup cid acc.results = some (outcomeOf (bulkStep ops action cid))) →
      List.lookup cid (bulkGo ops action ids acc).results =
        some (outcomeOf (bulkStep ops action cid)) := by
  intro ids
  induction ids with
  | nil =>
    intro acc cid h
    rcases h with h | h
    · simp at h
    · simpa [bulkGo] using h
  | cons hd t ih =>
    intro acc cid h
    rw [bulkGo_cons]
    apply ih
    by_cases hcid : cid = hd
    · subst hcid
      exact Or.inr (lookup_mapSet_self cid _ acc.results)
    · rcases h with hmem | hacc
      · rcases List.mem_cons.mp hmem with h1 | h1
        · exact absurd h1 hcid
        · exact Or.inl h1
      · right
        rw [lookup_mapSet_ne _ _ _ hcid, hacc]

/-- When a two-part port spec parses and the requested port is free, the
port phase binds the RAW requested host-port string unchanged. -/
theorem portPhase_free (s h c : String) (hp : Int) (lr : ListResult)
    (hsplit : goSplit s ":" = [h, c]) (hatoi : goAtoi h = some hp)
    (hfree : isPortInUse hp lr = false) :
    portPhase s lr = .binding ⟨c ++ "/tcp", "0.0.0.0", h, c⟩ := by
  have hne : ¬((s == "") = true) := by
    intro hs
    have hs0 : s = "" := beq_iff_eq.mp hs
    subst hs0
    rw [show goSplit "" ":" = [""] by rfl] at hsplit
    have := congrArg List.length hsplit
    simp at this
  have hres : resolveHostPort hp lr = some hp := by
    unfold resolveHostPort
    rw [hfree]
    simp
  unfold portPhase
  rw [if_neg hne, hsplit]
  dsimp only
  rw [hatoi]
  dsimp only
  rw [hres]
  dsimp only
  rw [hfree]
  simp

/-! ## Claim theorems -/

/-- C1: the availability check hardcodes 8080 as the reserved "server port"
while the service listens on 8081; at the failing input — requested host
port 8081, the actual listening port, with the daemon reporting no
containers — the check reports the port as NOT in use, and it reports 8080
(not the listening port) as always in use. -/
theorem claim1_reserved_port_is_not_listen_port :
    serverListenPort = 8081 ∧
    isPortInUse serverListenPort (.ok []) = false ∧
    isPortInUse 8080 (.ok []) = true := by
  exact ⟨rfl, by decide, by decide⟩

/-- C3 counterexample: the synthesized name for an absent request name at
Unix time 0 is "my-container-0", not "container-" followed by the
timestamp as the claim states. -/
theorem claim3_synth_name_uses_my_container :
    resolveName "" 0 (.ok []) = "my-container-0" ∧
    "my-container-0" ≠ "container-" ++ toString (0 : Int) := by
  exact ⟨by decide, by decide⟩

/-- C3 amended: for every request with no container name given, the
synthesized name equals "my-container-" followed by the current Unix
timestamp in seconds. -/
theorem claim3_amended_synth_name (now : Int) (lr : ListResult) :
    resolveName "" now lr = "my-container-" ++ toString now := by
  unfold resolveName
  rw [if_pos (by rfl)]

/-- C4 counterexample: requested port 9998 is in use (published by a known
container) and so is 9999, so the ascending scan fails and the fallback scan
returns 8081 — which is NOT strictly greater than the requested 9998. -/
theorem claim4_fallback_returns_smaller_port :
    isPortInUse 9998 (.ok [⟨"c", [], [9998, 9999]⟩]) = true ∧
    resolveHostPort 9998 (.ok [⟨"c", [], [9998, 9999]⟩]) = some 8081 ∧
    (8081 : Int) < 9998 := by
  exact ⟨by decide, by decide, by decide⟩

/-- C4 amended: when the requested port is in use and the allocator returns
a port, that port is itself neither reserved nor published by any known
container; it is strictly greater than the requested port whenever the
requested port is below 8081 (the fallback scan, which starts at 8081, can
otherwise return a smaller port). -/
theorem claim4_amended_replacement_port_free (requested p : Int) (lr : ListResult)
    (hin : isPortInUse requested lr = true)
    (hres : resolveHostPort requested lr = some p) :
    isPortInUse p lr = false ∧ (requested < 8081 → requested < p) := by
  unfold resolveHostPort at hres
  rw [hin, if_pos rfl] at hres
  cases hscan : scanFree lr (requested + 1) (9999 - requested).toNat with
  | some q =>
    rw [hscan] at hres
    injection hres with hq
    subst hq
    obtain ⟨hf, hle⟩ := scanFree_sound lr _ _ _ hscan
    exact ⟨hf, fun _ => by omega⟩
  | none =>
    rw [hscan] at hres
    obtain ⟨hf, hle⟩ := scanFree_sound lr _ _ _ hres
    exact ⟨hf, fun hlt => by omega⟩

/-- C4 amended, witness: requested port 8080 (the hardcoded reserved one)
with no containers is in use; the allocator returns 8081, which is free and
greater. -/
theorem claim4_amended_replacement_port_free_witness :
    isPortInUse 8080 (.ok []) = true ∧
    resolveHostPort 8080 (.ok []) = some 8081 ∧
    (isPortInUse 8081 (.ok []) = false ∧ ((8080 : Int) < 8081 → (8080 : Int) < 8081)) :=
  ⟨by decide, by decide,
    claim4_amended_replacement_port_free 8080 8081 (.ok []) (by decide) (by decide)⟩

/-- C5 counterexample: requested name "web" collides (container "/web" is
known), the loop resolves it to "web-100" (timestamp 100 appended), but
"web-100" is ALSO a known container name, so the resolved name is not
outside the existing-name set as the claim states. -/
theorem claim5_resolved_name_still_collides :
    anyNameMatches [⟨"1", ["/web-100"], []⟩, ⟨"2", ["/web"], []⟩] "web" = true ∧
    resolveName "web" 100 (.ok [⟨"1", ["/web-100"], []⟩, ⟨"2", ["/web"], []⟩]) = "web-100" ∧
    anyNameMatches [⟨"1", ["/web-100"], []⟩, ⟨"2", ["/web"], []⟩] "web-100" = true := by
  exact ⟨by decide, by decide, by decide⟩

/-- C5 amended: for every requested name that collides with an existing
container name (leading "/" stripped), the resolved name is the original
with at least one "-" ++ timestamp numeric suffix appended; it is NOT
guaranteed to avoid the existing-name set. -/
theorem claim5_amended_collision_appends_suffix (req : String) (now : Int)
    (cs : List ContainerSummary) (hreq : req ≠ "")
    (hcol : anyNameMatches cs req = true) :
    ∃ k, 1 ≤ k ∧ resolveName req now (.ok cs) = req ++ suffixBlocks now k := by
  unfold resolveName
  rw [if_neg (fun hs => hreq (beq_iff_eq.mp hs))]
  exact collideFold_collide now cs req hcol

/-- C5 amended, witness at name "web", time 5, one colliding container. -/
theorem claim5_amended_collision_appends_suffix_witness :
    ("web" : String) ≠ "" ∧ anyNameMatches [⟨"1", ["/web"], []⟩] "web" = true ∧
    (∃ k, 1 ≤ k ∧
      resolveName "web" 5 (.ok [⟨"1", ["/web"], []⟩]) = "web" ++ suffixBlocks 5 k) :=
  ⟨by decide, by decide,
    claim5_amended_collision_appends_suffix "web" 5 [⟨"1", ["/web"], []⟩]
      (by decide) (by decide)⟩

/-- A two-part port spec whose host part fails `strconv.Atoi` makes the port
phase answer 400. -/
theorem portPhase_badRequest (s h c : String) (lr : ListResult)
    (hsplit : goSplit s ":" = [h, c]) (hatoi : goAtoi h = none) :
    portPhase s lr = .badRequest ("Invalid host port: " ++ h) := by
  have hne : ¬((s == "") = true) := by
    intro hs
    have hs0 : s = "" := beq_iff_eq.mp hs
    subst hs0
    rw [show goSplit "" ":" = [""] by rfl] at hsplit
    have := congrArg List.length hsplit
    simp at this
  unfold portPhase
  rw [if_neg hne, hsplit]
  dsimp only
  rw [hatoi]

/-- C2 counterexample: the port spec "1:2:3" does not split into exactly two
parts, yet the handler does NOT answer 400 — it silently drops the port
mapping, issues `createContainer` and `startContainer`, and answers 200 (even
flagging the port as "changed" to "none"). -/
theorem claim2_malformed_port_not_rejected :
    createFlow ⟨"web", "", "1:2:3"⟩ 0 0 (.ok []) (fun _ => none) (.ok [])
        (fun _ => .ok "cid") (fun _ => none) =
      (.ok "cid" "web" "nginx:latest" "none" true,
        [.createC "web" none, .startC "cid"]) := by
  decide

/-- C2 amended: only a port spec that splits on ":" into exactly two parts
whose host part is not numeric is rejected with 400 before any
container-mutating daemon call (the call trace is empty); a spec that does
not split into two parts is silently ignored instead. -/
theorem claim2_amended_nonnumeric_port_400 (req : CreateContainerRequest)
    (now nowNano : Int) (imgList : Except String (List (List String)))
    (pullRes : String → Option String) (lr : ListResult)
    (createRes : String → Except String String) (startRes : String → Option String)
    (h c : String) (hsplit : goSplit req.port ":" = [h, c]) (hatoi : goAtoi h = none)
    (himg : imagePhase (resolvedImage req.image) imgList pullRes = none) :
    createFlow req now nowNano imgList pullRes lr createRes startRes =
      (.badPort ("Invalid host port: " ++ h), []) := by
  unfold createFlow
  dsimp only
  rw [himg]
  dsimp only
  rw [portPhase_badRequest req.port h c lr hsplit hatoi]

/-- C2 amended, witness: port spec "abc:80", image list failing (which the
handler only logs), no daemon mutation and a 400 answer. -/
theorem claim2_amended_nonnumeric_port_400_witness :
    createFlow ⟨"", "", "abc:80"⟩ 0 0 (.error "imgfail") (fun _ => none) (.ok [])
        (fun _ => .ok "cid") (fun _ => none) =
      (.badPort ("Invalid host port: " ++ "abc"), []) :=
  claim2_amended_nonnumeric_port_400 ⟨"", "", "abc:80"⟩ 0 0 (.error "imgfail")
    (fun _ => none) (.ok []) (fun _ => .ok "cid") (fun _ => none) "abc" "80"
    (by decide) (by decide) (by decide)

/-- C6: a requested host port that is neither the hardcoded reserved 8080
nor published by any known container is returned unchanged by the allocator,
and the container is created with exactly that host-port binding (raw
requested string, host IP 0.0.0.0, container port with "/tcp"). -/
theorem claim6_free_port_kept_and_bound (req : CreateContainerRequest)
    (now nowNano : Int) (imgList : Except String (List (List String)))
    (pullRes : String → Option String) (lr : ListResult)
    (createRes : String → Except String String) (startRes : String → Option String)
    (h c : String) (hp : Int) (cid : String)
    (hsplit : goSplit req.port ":" = [h, c]) (hatoi : goAtoi h = some hp)
    (hfree : isPortInUse hp lr = false)
    (himg : imagePhase (resolvedImage req.image) imgList pullRes = none)
    (hcreate : createRes (resolveName req.name now lr) = .ok cid)
    (hstart : startRes cid = none) :
    resolveHostPort hp lr = some hp ∧
    createFlow req now nowNano imgList pullRes lr createRes startRes =
      (.ok cid (resolveName req.name now lr) (resolvedImage req.image) (h ++ ":" ++ c)
          ((h ++ ":" ++ c) != req.port && req.port != ""),
        [.createC (resolveName req.name now lr) (some ⟨c ++ "/tcp", "0.0.0.0", h, c⟩),
          .startC cid]) := by
  have hres : resolveHostPort hp lr = some hp := by
    unfold resolveHostPort
    rw [hfree]
    simp
  refine ⟨hres, ?_⟩
  unfold createFlow
  dsimp only
  rw [himg]
  dsimp only
  rw [portPhase_free req.port h c hp lr hsplit hatoi hfree]
  dsimp only
  unfold createStartPhase
  rw [hcreate]
  dsimp only
  unfold startPhase
  rw [hstart]

/-- C6 witness: port "5:80" with no containers, image already local. -/
theorem claim6_free_port_kept_and_bound_witness :
    resolveHostPort 5 (.ok []) = some 5 ∧
    createFlow ⟨"web", "img", "5:80"⟩ 0 0 (.ok [["img"]]) (fun _ => none) (.ok [])
        (fun _ => .ok "cid") (fun _ => none) =
      (.ok "cid" (resolveName "web" 0 (.ok [])) (resolvedImage "img") ("5" ++ ":" ++ "80")
          (("5" ++ ":" ++ "80") != "5:80" && ("5:80" : String) != ""),
        [.createC (resolveName "web" 0 (.ok [])) (some ⟨"80" ++ "/tcp", "0.0.0.0", "5", "80"⟩),
          .startC "cid"]) :=
  claim6_free_port_kept_and_bound ⟨"web", "img", "5:80"⟩ 0 0 (.ok [["img"]])
    (fun _ => none) (.ok []) (fun _ => .ok "cid") (fun _ => none) "5" "80" 5 "cid"
    (by decide) (by decide) (by decide) (by decide) rfl rfl

/-- C7: when `createContainer` fails with a message containing both "already
in use" and "container name", exactly one retry is issued under the original
resolved name with the nanosecond timestamp appended; the trace holds exactly
those two create calls, and a failure of the retry is surfaced as a 500 with
no further attempt. -/
theorem claim7_single_retry_with_nano_suffix (name : String)
    (binding : Option PortConfig) (apm reqPort image : String) (nowNano : Int)
    (createRes : String → Except String String) (startRes : String → Option String)
    (e : String) (hfail : createRes name = .error e)
    (hconf1 : containsStr e "already in use" = true)
    (hconf2 : containsStr e "container name" = true) :
    (createStartPhase name binding apm reqPort image nowNano createRes startRes).2 =
      (match createRes (name ++ "-" ++ toString nowNano) with
        | .ok cid => [.createC name binding,
            .createC (name ++ "-" ++ toString nowNano) binding, .startC cid]
        | .error _ => [.createC name binding,
            .createC (name ++ "-" ++ toString nowNano) binding]) ∧
    (∀ e2, createRes (name ++ "-" ++ toString nowNano) = .error e2 →
      (createStartPhase name binding apm reqPort image nowNano createRes startRes).1 =
        .createFailed ("Error creating container: " ++ e2)) := by
  unfold createStartPhase
  rw [hfail]
  dsimp only
  rw [if_pos hconf1, if_pos hconf2]
  constructor
  · cases hr : createRes (name ++ "-" ++ toString nowNano) <;> rfl
  · intro e2 hr2
    rw [hr2]

/-- C7 witness: first create fails with a name conflict, the retry under
"web-7" fails too; the trace shows exactly two create calls and the retry
failure is surfaced. -/
theorem claim7_single_retry_with_nano_suffix_witness :
    (createStartPhase "web" none "none" "" "nginx:latest" 7
        (fun n => if n == "web"
          then Except.error "Conflict. The container name /web is already in use"
          else Except.error "boom")
        (fun _ => none)).2 =
      [.createC "web" none, .createC "web-7" none] ∧
    (createStartPhase "web" none "none" "" "nginx:latest" 7
        (fun n => if n == "web"
          then Except.error "Conflict. The container name /web is already in use"
          else Except.error "boom")
        (fun _ => none)).1 = .createFailed ("Error creating container: " ++ "boom") := by
  have h := claim7_single_retry_with_nano_suffix "web" none "none" "" "nginx:latest" 7
    (fun n => if n == "web"
      then Except.error "Conflict. The container name /web is already in use"
      else Except.error "boom")
    (fun _ => none)
    "Conflict. The container name /web is already in use" rfl (by decide) (by decide)
  exact ⟨h.1.trans (by decide), h.2 "boom" rfl⟩

/-- C8 counterexample: a start-failure message containing both "bind host
port" and "0.0.0.0:9001:" is classified as a port conflict, but the
extracted port is read after the FIRST occurrence of "0.0.0.0:" — here
"80", not "9001" as the claim states. -/
theorem claim8_extraction_takes_first_occurrence :
    containsStr "bind host port 0.0.0.0:80: also 0.0.0.0:9001: busy" "bind host port" = true ∧
    containsStr "bind host port 0.0.0.0:80: also 0.0.0.0:9001: busy" "0.0.0.0:9001:" = true ∧
    classifyStartErr "bind host port 0.0.0.0:80: also 0.0.0.0:9001: busy" =
      .portBindingFailed "80" ∧
    "80" ≠ "9001" := by
  exact ⟨by decide, by decide, by decide, by decide⟩

/-- C8 amended: a start-failure message containing "bind host port" whose
FIRST occurrence of "0.0.0.0:" is immediately followed by "9001:" is
classified as a port conflict with extracted port "9001". -/
theorem claim8_amended_first_occurrence_port (msg : String) (i : Nat)
    (hbind : containsStr msg "bind host port" = true)
    (hidx : goIndex msg "0.0.0.0:" = some i)
    (htake : (msg.data.drop (i + 8)).take 5 = ['9', '0', '0', '1', ':']) :
    classifyStartErr msg = .portBindingFailed "9001" := by
  unfold classifyStartErr
  rw [if_pos hbind]
  congr 1
  unfold extractConflictPort
  rw [hidx]
  dsimp only
  have hrest : msg.data.drop (i + 8) =
      '9' :: '0' :: '0' :: '1' :: ':' :: (msg.data.drop (i + 8)).drop 5 := by
    conv_lhs => rw [← List.take_append_drop 5 (msg.data.drop (i + 8))]
    rw [htake]
    rfl
  rw [hrest]
  rw [show ∀ t : List Char, idxAux [':'] ('9' :: '0' :: '0' :: '1' :: ':' :: t) = some 4
    from fun t => rfl]
  dsimp only
  rfl

/-- C8 amended, witness at the typical daemon message. -/
theorem claim8_amended_first_occurrence_port_witness :
    classifyStartErr "bind host port 0.0.0.0:9001: x" = .portBindingFailed "9001" :=
  claim8_amended_first_occurrence_port "bind host port 0.0.0.0:9001: x" 15
    (by decide) (by decide) (by decide)

/-- C9: for every bulk request, one daemon call is issued per target in
input order (no failure stops the loop), the summary satisfies
success + errors = total = N, and every input id's results entry holds the
outcome of that id's own daemon call. -/
theorem claim9_bulk_invariants (ops : DaemonOps) (action : String) (ids : List String) :
    (bulkApply ops action ids).success + (bulkApply ops action ids).errors = ids.length ∧
    (bulkApply ops action ids).calls = (ids.map fun cid => (action, cid)) ∧
    (ids.all fun cid =>
      decide (List.lookup cid (bulkApply ops action ids).results =
        some (outcomeOf (bulkStep ops action cid)))) = true := by
  refine ⟨?_, ?_, ?_⟩
  · have h := bulkGo_counts ops action ids ⟨[], 0, 0, []⟩
    simpa [bulkApply] using h
  · have h := bulkGo_calls ops action ids ⟨[], 0, 0, []⟩
    simpa [bulkApply] using h
  · rw [List.all_eq_true]
    intro cid hmem
    rw [decide_eq_true_eq]
    exact bulkGo_lookup ops action ids ⟨[], 0, 0, []⟩ cid (Or.inl hmem)

/-- C10: in the port availability check, a failed container list makes every
port other than the hardcoded 8080 count as free; consequently such a
requested port is accepted unchanged and bound without any published-port
verification. -/
theorem claim10_list_failure_accepts_port (s h c : String) (hp : Int) (e : String)
    (hsplit : goSplit s ":" = [h, c]) (hatoi : goAtoi h = some hp)
    (hne : hp ≠ 8080) :
    isPortInUse hp (.error e) = false ∧
    portPhase s (.error e) = .binding ⟨c ++ "/tcp", "0.0.0.0", h, c⟩ ∧
    resolveHostPort hp (.error e) = some hp := by
  have hfree : isPortInUse hp (.error e) = false := by
    unfold isPortInUse
    rw [if_neg (fun hb => hne (beq_iff_eq.mp hb))]
  refine ⟨hfree, portPhase_free s h c hp (.error e) hsplit hatoi hfree, ?_⟩
  unfold resolveHostPort
  rw [hfree]
  simp

/-- C10 witness: port spec "9001:80" under a failing container list. -/
theorem claim10_list_failure_accepts_port_witness :
    isPortInUse 9001 (.error "daemon down") = false ∧
    portPhase "9001:80" (.error "daemon down") =
      .binding ⟨"80" ++ "/tcp", "0.0.0.0", "9001", "80"⟩ ∧
    resolveHostPort 9001 (.error "daemon down") = some 9001 :=
  claim10_list_failure_accepts_port "9001:80" "9001" "80" 9001 "daemon down"
    (by decide) (by decide) (by decide)
